import Mathlib

/-!
Verification of the shutdown coordinator (src/utils/shutdown_token.rs) and the
dialogue handle (src/dispatching2/dialogue/mod.rs) of the teloxide dispatch core.

The shutdown coordinator is shallowly embedded: the `AtomicU8` holding the
`ShutdownState` discriminant becomes an explicit `Nat` threaded through the
operations, and the `tokio::sync::Notify` used to release shutdown waiters is
modelled by two counters (`waiters`: futures registered on the notify and not
yet released; `released`: futures already released).  A Rust `panic!` or
`unreachable!` is modelled by returning `none`.
-/

namespace Teloxide

/-- The tri-state of the dispatcher, `#[repr(u8)]` with discriminants in
declaration order: Running = 0, ShuttingDown = 1, Idle = 2. -/
inductive ShutdownState : Type where
  | Running
  | ShuttingDown
  | Idle
deriving DecidableEq

namespace ShutdownState

/-- The `as u8` cast of a `ShutdownState` discriminant. -/
def toU8 : ShutdownState → Nat
  | Running => 0
  | ShuttingDown => 1
  | Idle => 2

/-- `ShutdownState::from_u8`; the catch-all arm is `unreachable!()`, modelled
by `none`. -/
def from_u8 (n : Nat) : Option ShutdownState :=
  if n = 0 then some Running
  else if n = 1 then some ShuttingDown
  else if n = 2 then some Idle
  else none

end ShutdownState

/-- `DispatcherState::compare_exchange`: compare-and-swap on the atomic byte,
mapping both the success and the failure value through `from_u8` as the source
does.  Returns the (mapped) result together with the new value of the byte. -/
def compare_exchange (s : Nat) (current new : ShutdownState) :
    Except (Option ShutdownState) (Option ShutdownState) × Nat :=
  if s = current.toU8
  then (Except.ok (ShutdownState.from_u8 s), new.toU8)
  else (Except.error (ShutdownState.from_u8 s), s)

/-- The four-way outcome of `shutdown_inner`, plus markers for its two dead
branches: `deadErrRunning` is the `Err(Running) => unreachable!()` arm, and
`deadFromU8` marks `from_u8` itself hitting its unreachable arm. -/
inductive ShutdownOutcome : Type where
  | ok
  | alreadyShuttingDown
  | idleError
  | deadErrRunning
  | deadFromU8
deriving DecidableEq

/-- `shutdown_inner`: compare-exchange Running -> ShuttingDown and classify
the result. -/
def shutdown_inner (s : Nat) : ShutdownOutcome × Nat :=
  match compare_exchange s ShutdownState.Running ShutdownState.ShuttingDown with
  | (Except.ok _, s1) => (ShutdownOutcome.ok, s1)
  | (Except.error (some ShutdownState.ShuttingDown), s1) =>
      (ShutdownOutcome.alreadyShuttingDown, s1)
  | (Except.error (some ShutdownState.Idle), s1) => (ShutdownOutcome.idleError, s1)
  | (Except.error (some ShutdownState.Running), s1) => (ShutdownOutcome.deadErrRunning, s1)
  | (Except.error none, s1) => (ShutdownOutcome.deadFromU8, s1)

/-- The observable state of one `ShutdownToken` coordinator: the atomic byte,
the number of pending waiters registered on `shutdown_notify_back`, and the
number of waiters already released by `notify_waiters`. -/
structure Coordinator : Type where
  state : Nat
  waiters : Nat
  released : Nat
deriving DecidableEq

/-- `ShutdownToken::new()`: atomic initialised to `Idle`, fresh notify. -/
def ShutdownToken_new : Coordinator :=
  { state := ShutdownState.Idle.toU8, waiters := 0, released := 0 }

/-- What `ShutdownToken::shutdown` hands back to the caller: either a waitable
handle (a future awaiting `shutdown_notify_back.notified()`) or
`IdleShutdownError`. -/
inductive ShutdownResult : Type where
  | okHandle
  | errIdle
deriving DecidableEq

/-- `ShutdownToken::shutdown`: `Ok(()) | Err(Ok(AlreadyShuttingDown))` both
yield a handle registered on the shared notify (one more pending waiter);
`Err(Err(IdleShutdownError))` is surfaced to the caller.  `none` models the
panic of a dead branch. -/
def shutdown (c : Coordinator) : Option (ShutdownResult × Coordinator) :=
  match shutdown_inner c.state with
  | (ShutdownOutcome.ok, s1) =>
      some (ShutdownResult.okHandle, { c with state := s1, waiters := c.waiters + 1 })
  | (ShutdownOutcome.alreadyShuttingDown, s1) =>
      some (ShutdownResult.okHandle, { c with state := s1, waiters := c.waiters + 1 })
  | (ShutdownOutcome.idleError, s1) => some (ShutdownResult.errIdle, { c with state := s1 })
  | (ShutdownOutcome.deadErrRunning, _) => none
  | (ShutdownOutcome.deadFromU8, _) => none

/-- `ShutdownToken::start_dispatching`: compare-exchange Idle -> Running,
panicking (`none`) when the exchange fails. -/
def start_dispatching (c : Coordinator) : Option Coordinator :=
  match compare_exchange c.state ShutdownState.Idle ShutdownState.Running with
  | (Except.ok _, s1) => some { c with state := s1 }
  | (Except.error _, _) => none

/-- `ShutdownToken::is_shutting_down`: load the atomic (through `from_u8`,
which may panic on an invalid byte) and test for `ShuttingDown`. -/
def is_shutting_down (c : Coordinator) : Option Bool :=
  match ShutdownState.from_u8 c.state with
  | some ShutdownState.ShuttingDown => some true
  | some _ => some false
  | none => none

/-- `ShutdownToken::done`: when shutting down, `notify_waiters()` releases
every pending waiter at once; on both branches the atomic is then set to
`Idle`. -/
def done (c : Coordinator) : Option Coordinator :=
  match is_shutting_down c with
  | some true =>
      some { state := ShutdownState.Idle.toU8, waiters := 0,
             released := c.released + c.waiters }
  | some false => some { c with state := ShutdownState.Idle.toU8 }
  | none => none

/-- Coordinator states reachable from `ShutdownToken::new()` through the
operations that write the atomic. -/
inductive Reachable : Coordinator → Prop where
  | init : Reachable ShutdownToken_new
  | start (c c' : Coordinator) : Reachable c → start_dispatching c = some c' → Reachable c'
  | shut (c : Coordinator) (r : ShutdownResult) (c' : Coordinator) :
      Reachable c → shutdown c = some (r, c') → Reachable c'
  | finish (c c' : Coordinator) : Reachable c → done c = some c' → Reachable c'

theorem shutdown_inner_char (s : Nat) :
    shutdown_inner s =
      if s = 0 then (ShutdownOutcome.ok, 1)
      else if s = 1 then (ShutdownOutcome.alreadyShuttingDown, 1)
      else if s = 2 then (ShutdownOutcome.idleError, 2)
      else (ShutdownOutcome.deadFromU8, s) := by
  by_cases h0 : s = 0 <;> by_cases h1 : s = 1 <;> by_cases h2 : s = 2 <;>
    simp [shutdown_inner, compare_exchange, ShutdownState.from_u8, ShutdownState.toU8,
      h0, h1, h2]

theorem shutdown_char (c : Coordinator) :
    shutdown c =
      if c.state = 0 then
        some (ShutdownResult.okHandle, ⟨1, c.waiters + 1, c.released⟩)
      else if c.state = 1 then
        some (ShutdownResult.okHandle, ⟨1, c.waiters + 1, c.released⟩)
      else if c.state = 2 then some (ShutdownResult.errIdle, c)
      else none := by
  obtain ⟨s, w, r⟩ := c
  by_cases h0 : s = 0 <;> by_cases h1 : s = 1 <;> by_cases h2 : s = 2 <;>
    simp [shutdown, shutdown_inner_char, h0, h1, h2]

theorem start_dispatching_char (c : Coordinator) :
    start_dispatching c =
      if c.state = 2 then some ⟨0, c.waiters, c.released⟩ else none := by
  obtain ⟨s, w, r⟩ := c
  by_cases h2 : s = 2 <;>
    simp [start_dispatching, compare_exchange, ShutdownState.toU8, h2]

theorem done_char (c : Coordinator) :
    done c =
      if c.state = 1 then some ⟨2, 0, c.released + c.waiters⟩
      else if c.state < 3 then some ⟨2, c.waiters, c.released⟩
      else none := by
  obtain ⟨s, w, r⟩ := c
  by_cases h0 : s = 0
  · simp [done, is_shutting_down, ShutdownState.from_u8, ShutdownState.toU8, h0]
  · by_cases h1 : s = 1
    · simp [done, is_shutting_down, ShutdownState.from_u8, ShutdownState.toU8, h0, h1]
    · by_cases h2 : s = 2
      · simp [done, is_shutting_down, ShutdownState.from_u8, ShutdownState.toU8, h0, h1, h2]
      · have h3 : ¬ s < 3 := by omega
        simp [done, is_shutting_down, ShutdownState.from_u8, h0, h1, h2, h3]

/-- Invariant of reachable coordinators: the atomic byte is a valid
discriminant, and pending waiters exist only while ShuttingDown. -/
theorem reachable_inv {c : Coordinator} (h : Reachable c) :
    c.state < 3 ∧ (c.state ≠ 1 → c.waiters = 0) := by
  induction h with
  | init => exact ⟨by decide, fun _ => rfl⟩
  | start c c' hr heq ih =>
      rw [start_dispatching_char] at heq
      by_cases h2 : c.state = 2
      · rw [if_pos h2] at heq
        injection heq with h
        subst h
        exact ⟨(by decide : (0:Nat) < 3), fun _ => ih.2 (by rw [h2]; decide)⟩
      · rw [if_neg h2] at heq
        exact absurd heq (by simp)
  | shut c r c' hr heq ih =>
      rw [shutdown_char] at heq
      by_cases h0 : c.state = 0
      · rw [if_pos h0] at heq
        injection heq with h
        injection h with hr hc
        subst hc
        exact ⟨(by decide : (1:Nat) < 3), fun h => absurd rfl h⟩
      · by_cases h1 : c.state = 1
        · rw [if_neg h0, if_pos h1] at heq
          injection heq with h
          injection h with hr hc
          subst hc
          exact ⟨(by decide : (1:Nat) < 3), fun h => absurd rfl h⟩
        · by_cases h2 : c.state = 2
          · rw [if_neg h0, if_neg h1, if_pos h2] at heq
            injection heq with h
            injection h with hr hc
            subst hc
            exact ih
          · rw [if_neg h0, if_neg h1, if_neg h2] at heq
            exact absurd heq (by simp)
  | finish c c' hr heq ih =>
      rw [done_char] at heq
      by_cases h1 : c.state = 1
      · rw [if_pos h1] at heq
        injection heq with h
        subst h
        exact ⟨(by decide : (2:Nat) < 3), fun _ => rfl⟩
      · have hlt : c.state < 3 := ih.1
        rw [if_neg h1, if_pos hlt] at heq
        injection heq with h
        subst h
        exact ⟨(by decide : (2:Nat) < 3), fun _ => ih.2 h1⟩

/-! Timing of the shutdown check (`shutdown_check_timeout_for`).  Durations
are modelled in nanoseconds; `Duration::saturating_add` caps at
`Duration::MAX` = u64::MAX seconds + 999 999 999 nanoseconds. -/

/-- `Duration::MAX` in nanoseconds. -/
def durationMaxNanos : Nat := 18446744073709551615 * 1000000000 + 999999999

/-- `Duration::saturating_add`. -/
def durationSaturatingAdd (a b : Nat) : Nat := min (a + b) durationMaxNanos

/-- `MIN_SHUTDOWN_CHECK_TIMEOUT = Duration::from_secs(1)` in nanoseconds. -/
def MIN_SHUTDOWN_CHECK_TIMEOUT : Nat := 1000000000

/-- `shutdown_check_timeout_for`: the listener's `timeout_hint()` (or
`Duration::ZERO` when absent) saturating-added to the minimum check
timeout.  An update listener is represented by its timeout hint, the only
part of it this function consults. -/
def shutdown_check_timeout_for (timeout_hint : Option Nat) : Nat :=
  durationSaturatingAdd (timeout_hint.getD 0) MIN_SHUTDOWN_CHECK_TIMEOUT

/-- Claim C1: a `shutdown()` call while ShuttingDown does not error: it
returns a waitable handle registered on the same notify, the state byte is
unchanged and no second drain begins; two callers invoking `shutdown()`
from Running both receive a handle, and the single `done()` of the one
drain releases both at once. -/
theorem C1_shutdown_idempotent (c : Coordinator) :
    (c.state = ShutdownState.ShuttingDown.toU8 →
      shutdown c = some (ShutdownResult.okHandle, { c with waiters := c.waiters + 1 })) ∧
    (c.state = ShutdownState.Running.toU8 →
      shutdown c = some (ShutdownResult.okHandle, ⟨1, c.waiters + 1, c.released⟩) ∧
      shutdown ⟨1, c.waiters + 1, c.released⟩ =
        some (ShutdownResult.okHandle, ⟨1, c.waiters + 2, c.released⟩) ∧
      done ⟨1, c.waiters + 2, c.released⟩ =
        some ⟨ShutdownState.Idle.toU8, 0, c.released + (c.waiters + 2)⟩) := by
  obtain ⟨s, w, r⟩ := c
  constructor
  · intro h1
    simp only [ShutdownState.toU8] at h1
    subst h1
    rw [shutdown_char]
    simp
  · intro h0
    simp only [ShutdownState.toU8] at h0
    subst h0
    refine ⟨?_, ?_, ?_⟩
    · rw [shutdown_char]
      simp
    · rw [shutdown_char]
      simp
    · rw [done_char]
      simp [ShutdownState.toU8]

/-- Claim C1 witness at a concrete Running coordinator. -/
theorem C1_shutdown_idempotent_witness :
    (⟨0, 5, 3⟩ : Coordinator).state = ShutdownState.Running.toU8 ∧
    shutdown ⟨0, 5, 3⟩ = some (ShutdownResult.okHandle, ⟨1, 6, 3⟩) ∧
    shutdown ⟨1, 6, 3⟩ = some (ShutdownResult.okHandle, ⟨1, 7, 3⟩) ∧
    done ⟨1, 7, 3⟩ = some ⟨2, 0, 10⟩ :=
  ⟨rfl, (C1_shutdown_idempotent ⟨0, 5, 3⟩).2 rfl⟩

/-- Claim C2: on a coordinator holding a valid state byte, `shutdown()`
never panics and never hangs (it always returns); when the state is Idle it
returns `IdleShutdownError` and leaves the coordinator unchanged; and it
returns an error if and only if the state is Idle. -/
theorem C2_idle_shutdown (c : Coordinator) (hv : c.state < 3) :
    (shutdown c).isSome ∧
    (c.state = ShutdownState.Idle.toU8 →
      shutdown c = some (ShutdownResult.errIdle, c)) ∧
    (∀ r c', shutdown c = some (r, c') →
      (r = ShutdownResult.errIdle ↔ c.state = ShutdownState.Idle.toU8)) := by
  obtain ⟨s, w, rl⟩ := c
  have hv' : s < 3 := hv
  simp only [ShutdownState.toU8]
  rw [shutdown_char]
  interval_cases s <;> simp

/-- Claim C2 witness at the freshly created (Idle) coordinator. -/
theorem C2_idle_shutdown_witness :
    ShutdownToken_new.state < 3 ∧
    shutdown ShutdownToken_new = some (ShutdownResult.errIdle, ShutdownToken_new) :=
  ⟨by decide, (C2_idle_shutdown ShutdownToken_new (by decide)).2.1 rfl⟩

/-- Claim C3: on a reachable coordinator, `done()` never panics; when the
loop stopped because of a shutdown request (state ShuttingDown) it releases
every pending waiter exactly once (released grows by exactly the number of
pending waiters, none are left pending) and sets the state to Idle; on the
end-of-stream path (state not ShuttingDown) it also returns to Idle and
there are no pending waiters to leave hanging. -/
theorem C3_done_releases_waiters (c : Coordinator) (hr : Reachable c) :
    (c.state = ShutdownState.ShuttingDown.toU8 →
      done c = some ⟨ShutdownState.Idle.toU8, 0, c.released + c.waiters⟩) ∧
    (c.state ≠ ShutdownState.ShuttingDown.toU8 →
      c.waiters = 0 ∧ done c = some ⟨ShutdownState.Idle.toU8, 0, c.released⟩) := by
  have hinv := reachable_inv hr
  simp only [ShutdownState.toU8] at *
  constructor
  · intro h1
    rw [done_char, if_pos h1]
  · intro h1
    have hw : c.waiters = 0 := hinv.2 h1
    refine ⟨hw, ?_⟩
    rw [done_char, if_neg h1, if_pos hinv.1, hw]

/-- Claim C3 witness: a full Running → ShuttingDown → done cycle from the
initial coordinator, with one waiter released exactly once. -/
theorem C3_done_releases_waiters_witness :
    Reachable (⟨1, 1, 0⟩ : Coordinator) ∧
    (⟨1, 1, 0⟩ : Coordinator).state = ShutdownState.ShuttingDown.toU8 ∧
    done ⟨1, 1, 0⟩ = some ⟨ShutdownState.Idle.toU8, 0, 1⟩ := by
  have h1 : Reachable (⟨0, 0, 0⟩ : Coordinator) :=
    Reachable.start ShutdownToken_new ⟨0, 0, 0⟩ Reachable.init (by decide)
  have h2 : Reachable (⟨1, 1, 0⟩ : Coordinator) :=
    Reachable.shut ⟨0, 0, 0⟩ ShutdownResult.okHandle ⟨1, 1, 0⟩ h1 (by decide)
  exact ⟨h2, rfl, (C3_done_releases_waiters ⟨1, 1, 0⟩ h2).1 rfl⟩

/-- Claim C4: `start_dispatching()` transitions Idle to Running; on every
coordinator whose state is not Idle it panics (modelled `none`) instead of
proceeding; under the precondition that the state is Idle the panic branch
is unreachable. -/
theorem C4_start_dispatching (c : Coordinator) :
    (c.state = ShutdownState.Idle.toU8 →
      start_dispatching c = some { c with state := ShutdownState.Running.toU8 } ∧
      start_dispatching c ≠ none) ∧
    (c.state ≠ ShutdownState.Idle.toU8 → start_dispatching c = none) := by
  simp only [ShutdownState.toU8]
  constructor
  · intro h2
    rw [start_dispatching_char, if_pos h2]
    obtain ⟨s, w, r⟩ := c
    exact ⟨rfl, by simp⟩
  · intro h2
    rw [start_dispatching_char, if_neg h2]

/-- Claim C4 witness: double start panics, single start from Idle runs. -/
theorem C4_start_dispatching_witness :
    ShutdownToken_new.state = ShutdownState.Idle.toU8 ∧
    start_dispatching ShutdownToken_new = some ⟨0, 0, 0⟩ ∧
    (⟨0, 0, 0⟩ : Coordinator).state ≠ ShutdownState.Idle.toU8 ∧
    start_dispatching ⟨0, 0, 0⟩ = none :=
  ⟨rfl, ((C4_start_dispatching ShutdownToken_new).1 rfl).1, by decide,
    (C4_start_dispatching ⟨0, 0, 0⟩).2 (by decide)⟩

/-- Claim C9: on every reachable coordinator the atomic byte holds a valid
`ShutdownState` discriminant, so `from_u8` never reaches its unreachable
arm, and `shutdown_inner` never reaches either of its dead branches — in
particular a failed compare-exchange expecting Running never reports
Running as the actual value. -/
theorem C9_state_byte_invariant (c : Coordinator) (hr : Reachable c) :
    (ShutdownState.from_u8 c.state).isSome ∧
    (shutdown_inner c.state).1 ≠ ShutdownOutcome.deadErrRunning ∧
    (shutdown_inner c.state).1 ≠ ShutdownOutcome.deadFromU8 := by
  have hlt : c.state < 3 := (reachable_inv hr).1
  obtain ⟨s, w, r⟩ := c
  have hlt' : s < 3 := hlt
  rw [shutdown_inner_char]
  interval_cases s <;> simp [ShutdownState.from_u8]

/-- Claim C9 witness at the initial coordinator. -/
theorem C9_state_byte_invariant_witness :
    Reachable ShutdownToken_new ∧
    (ShutdownState.from_u8 ShutdownToken_new.state).isSome :=
  ⟨Reachable.init, (C9_state_byte_invariant ShutdownToken_new Reachable.init).1⟩

/-- Claim C6 counterexample: for a listener whose timeout hint is 2 seconds,
the computed shutdown-check timeout is 3 seconds (hint plus the one-second
minimum), not max(hint, minimum) = 2 seconds as claimed. -/
theorem C6_counterexample :
    shutdown_check_timeout_for (some 2000000000) ≠
      max ((some (2000000000 : Nat)).getD 0) MIN_SHUTDOWN_CHECK_TIMEOUT := by
  decide

/-- Claim C6 amended: the shutdown-check timeout is the listener's timeout
hint (or zero when absent) plus the fixed one-second minimum check interval
(saturating at `Duration::MAX`); whenever the sum does not saturate this is
at least — not equal to — max(one source poll cycle, the minimum check
interval). -/
theorem C6_shutdown_check_timeout (timeout_hint : Option Nat)
    (hb : timeout_hint.getD 0 + MIN_SHUTDOWN_CHECK_TIMEOUT ≤ durationMaxNanos) :
    shutdown_check_timeout_for timeout_hint =
      timeout_hint.getD 0 + MIN_SHUTDOWN_CHECK_TIMEOUT ∧
    max (timeout_hint.getD 0) MIN_SHUTDOWN_CHECK_TIMEOUT ≤
      shutdown_check_timeout_for timeout_hint := by
  have he : shutdown_check_timeout_for timeout_hint =
      timeout_hint.getD 0 + MIN_SHUTDOWN_CHECK_TIMEOUT := by
    unfold shutdown_check_timeout_for durationSaturatingAdd
    exact min_eq_left hb
  refine ⟨he, ?_⟩
  rw [he]
  unfold MIN_SHUTDOWN_CHECK_TIMEOUT
  omega

/-- Claim C6 amended witness at a two-second timeout hint. -/
theorem C6_shutdown_check_timeout_witness :
    (some (2000000000 : Nat)).getD 0 + MIN_SHUTDOWN_CHECK_TIMEOUT ≤ durationMaxNanos ∧
    shutdown_check_timeout_for (some 2000000000) = 3000000000 :=
  ⟨by decide, (C6_shutdown_check_timeout (some 2000000000) (by decide)).1⟩

/-! Dialogue handle (src/dispatching2/dialogue/mod.rs).  The `Storage<D>`
trait the handle is generic over lives outside the given sources, so its
interface is taken from the handle's call sites and its behavioural contract
is modelled from the spec.  An async, possibly failing store becomes a pair
(result, next store state) for each operation; `D` is the dialogue type,
`E` the backend error type, `σ` the store's state. -/

/-- The capability set of a `Storage<D>` backend as the `Dialogue` handle
uses it: `get_dialogue`, `update_dialogue`, `remove_dialogue`, each able to
fail with a backend error `E` and each possibly changing the store state. -/
structure Storage (D E σ : Type) : Type where
  get_dialogue : σ → Int → Except E (Option D) × σ
  update_dialogue : σ → Int → D → Except E Unit × σ
  remove_dialogue : σ → Int → Except E Unit × σ

/-- `Dialogue<D, S>`: a shared storage reference plus the fixed `chat_id`
(`i64`) of one conversation. -/
structure Dialogue (D E σ : Type) : Type where
  storage : Storage D E σ
  chat_id : Int

namespace Dialogue

variable {D E σ : Type}

/-- `Dialogue::get`: read the record for this handle's chat id. -/
def get (dlg : Dialogue D E σ) (s : σ) : Except E (Option D) × σ :=
  dlg.storage.get_dialogue s dlg.chat_id

/-- `Dialogue::get_or_default`: read and, when absent, persist the default
value and return it; backend errors of either call propagate via `?`. -/
def get_or_default [Inhabited D] (dlg : Dialogue D E σ) (s : σ) : Except E D × σ :=
  match dlg.get s with
  | (Except.error e, s1) => (Except.error e, s1)
  | (Except.ok (some d), s1) => (Except.ok d, s1)
  | (Except.ok none, s1) =>
      match dlg.storage.update_dialogue s1 dlg.chat_id default with
      | (Except.error e, s2) => (Except.error e, s2)
      | (Except.ok _, s2) => (Except.ok default, s2)

/-- `Dialogue::update`: convert the new state through `Into` (the function
`into`) and write it wholesale; a backend error propagates via `?`. -/
def update {St : Type} (dlg : Dialogue D E σ) (into : St → D) (state : St) (s : σ) :
    Except E Unit × σ :=
  match dlg.storage.update_dialogue s dlg.chat_id (into state) with
  | (Except.error e, s1) => (Except.error e, s1)
  | (Except.ok _, s1) => (Except.ok (), s1)

/-- `Dialogue::reset`: `self.update(D::default())`, the `From<D> for D`
conversion being the identity. -/
def reset [Inhabited D] (dlg : Dialogue D E σ) (s : σ) : Except E Unit × σ :=
  update dlg (fun d => d) (default : D) s

/-- `Dialogue::exit`: `self.storage.remove_dialogue(self.chat_id)`. -/
def exit (dlg : Dialogue D E σ) (s : σ) : Except E Unit × σ :=
  dlg.storage.remove_dialogue s dlg.chat_id

end Dialogue

/-- Modelled from the spec: the abstract Storage contract (spec §4.4, §6) for
a backend missing from the given sources.  `contents` abstracts a store
state to its per-conversation records; a successful `get` reports the
current record and does not write; a successful `update` replaces the record
for its key wholesale and no other; a successful `remove` deletes the record
for its key and no other. -/
structure LawfulStorage {D E σ : Type} (S : Storage D E σ)
    (contents : σ → Int → Option D) : Prop where
  get_ok : ∀ s i r s1, S.get_dialogue s i = (Except.ok r, s1) →
      r = contents s i ∧ s1 = s
  update_ok : ∀ s i d s1, S.update_dialogue s i d = (Except.ok (), s1) →
      ∀ j, contents s1 j = if j = i then some d else contents s j
  remove_ok : ∀ s i s1, S.remove_dialogue s i = (Except.ok (), s1) →
      ∀ j, contents s1 j = if j = i then none else contents s j

/-- Modelled from the spec: the in-process reference backend (`InMemStorage`),
a mapping from chat id to record; never fails. -/
def InMemStorage (D : Type) : Storage D Empty (Int → Option D) :=
  { get_dialogue := fun s i => (Except.ok (s i), s),
    update_dialogue := fun s i d => (Except.ok (), fun j => if j = i then some d else s j),
    remove_dialogue := fun s i => (Except.ok (), fun j => if j = i then none else s j) }

theorem InMemStorage_lawful (D : Type) :
    LawfulStorage (InMemStorage D) (fun s => s) := by
  constructor
  · intro s i r s1 h
    simp only [InMemStorage, Prod.mk.injEq, Except.ok.injEq] at h
    exact ⟨h.1.symm, h.2.symm⟩
  · intro s i d s1 h
    simp only [InMemStorage, Prod.mk.injEq, true_and] at h
    intro j
    rw [← h]
  · intro s i s1 h
    simp only [InMemStorage, Prod.mk.injEq, true_and] at h
    intro j
    rw [← h]

/-- A backend whose every operation fails with error 7, used to witness
error propagation. -/
def failStorage : Storage Nat Nat Unit :=
  { get_dialogue := fun s _ => (Except.error 7, s),
    update_dialogue := fun s _ _ => (Except.error 7, s),
    remove_dialogue := fun s _ => (Except.error 7, s) }

/-- A reference store state holding record 5 for chat 42 and nothing else. -/
def presentStore : Int → Option Nat :=
  fun j => if j = 42 then some 5 else none

/-- Claim C5: over any store satisfying the abstract Storage contract,
`update` followed by a successful `get` yields `some` of the written state;
`exit` followed by a successful `get` yields `none`; a successful
`get_or_default` on an absent id returns the default and leaves the default
persisted in the store (the store is not left empty), so `get` finds it. -/
theorem C5_dialogue_round_trip (D E σ St : Type) [Inhabited D]
    (dlg : Dialogue D E σ) (contents : σ → Int → Option D)
    (L : LawfulStorage dlg.storage contents) :
    (∀ (into : St → D) (st : St) (s s1 s2 : σ) (r : Option D),
        dlg.update into st s = (Except.ok (), s1) →
        dlg.get s1 = (Except.ok r, s2) → r = some (into st)) ∧
    (∀ (s s1 s2 : σ) (r : Option D),
        dlg.exit s = (Except.ok (), s1) →
        dlg.get s1 = (Except.ok r, s2) → r = none) ∧
    (∀ (s s1 : σ) (d : D),
        contents s dlg.chat_id = none →
        dlg.get_or_default s = (Except.ok d, s1) →
        d = default ∧ contents s1 dlg.chat_id = some default) := by
  refine ⟨?_, ?_, ?_⟩
  · intro into st s s1 s2 r hu hg
    unfold Dialogue.update at hu
    rcases hup : dlg.storage.update_dialogue s dlg.chat_id (into st) with ⟨res, s1'⟩
    rw [hup] at hu
    cases res with
    | error e =>
        have hu' : ((Except.error e : Except E Unit), s1') = (Except.ok (), s1) := hu
        exact absurd (congrArg Prod.fst hu') (by simp)
    | ok u =>
        cases u
        have hu' : ((Except.ok () : Except E Unit), s1') = (Except.ok (), s1) := hu
        have hs : s1' = s1 := congrArg Prod.snd hu'
        have hcont := L.update_ok s dlg.chat_id (into st) s1 (by rw [hup, hs])
        have hr := (L.get_ok s1 dlg.chat_id r s2 hg).1
        rw [hr, hcont dlg.chat_id, if_pos rfl]
  · intro s s1 s2 r he hg
    unfold Dialogue.exit at he
    have hcont := L.remove_ok s dlg.chat_id s1 he
    have hr := (L.get_ok s1 dlg.chat_id r s2 hg).1
    rw [hr, hcont dlg.chat_id, if_pos rfl]
  · intro s s1 d habs hgd
    unfold Dialogue.get_or_default at hgd
    rcases hget : dlg.get s with ⟨res, s1'⟩
    rw [hget] at hgd
    cases res with
    | error e =>
        have hgd' : ((Except.error e : Except E D), s1') = (Except.ok d, s1) := hgd
        exact absurd (congrArg Prod.fst hgd') (by simp)
    | ok o =>
        have hro := L.get_ok s dlg.chat_id o s1' hget
        cases o with
        | some d0 => exact absurd (hro.1.trans habs) (by simp)
        | none =>
            have hgd2 :
                (match dlg.storage.update_dialogue s1' dlg.chat_id default with
                  | (Except.error e, s2) => ((Except.error e : Except E D), s2)
                  | (Except.ok _, s2) => (Except.ok default, s2)) =
                  (Except.ok d, s1) := hgd
            rcases hup : dlg.storage.update_dialogue s1' dlg.chat_id default with ⟨ures, s2'⟩
            rw [hup] at hgd2
            cases ures with
            | error e =>
                have hgd' : ((Except.error e : Except E D), s2') = (Except.ok d, s1) := hgd2
                exact absurd (congrArg Prod.fst hgd') (by simp)
            | ok u =>
                cases u
                have hgd' : ((Except.ok (default : D) : Except E D), s2') =
                    (Except.ok d, s1) := hgd2
                injection hgd' with hfst hsnd
                injection hfst with hd
                have hcont := L.update_ok s1' dlg.chat_id default s2' (by rw [hup])
                refine ⟨hd.symm, ?_⟩
                rw [← hsnd, hcont dlg.chat_id, if_pos rfl]

/-- Claim C5 witness: the reference in-memory store on chat 42, starting
empty, with `get_or_default` persisting the default. -/
theorem C5_dialogue_round_trip_witness :
    LawfulStorage (Dialogue.storage ⟨InMemStorage Nat, 42⟩) (fun s => s) ∧
    ((fun _ => none) : Int → Option Nat) 42 = none ∧
    ((0 : Nat) = default ∧
      ((fun j => if j = (42 : Int) then some (0 : Nat) else none) : Int → Option Nat) 42 =
        some default) :=
  ⟨InMemStorage_lawful Nat, rfl,
    (C5_dialogue_round_trip Nat Empty (Int → Option Nat) Bool ⟨InMemStorage Nat, 42⟩
        (fun s => s) (InMemStorage_lawful Nat)).2.2
      (fun _ => none) (fun j => if j = (42 : Int) then some 0 else none) 0 rfl rfl⟩

/-- Claim C7: `reset()` is exactly `update(default)` through the identity
conversion, and `exit()` is exactly the store's remove operation at the
handle's chat id, over the same store state. -/
theorem C7_reset_exit_refinement (D E σ : Type) [Inhabited D] (dlg : Dialogue D E σ) :
    (∀ s : σ, dlg.reset s = dlg.update (fun d => d) (default : D) s) ∧
    (∀ s : σ, dlg.exit s = dlg.storage.remove_dialogue s dlg.chat_id) :=
  ⟨fun _ => rfl, fun _ => rfl⟩

/-- Claim C8: every backend error raised by the store during a `Dialogue`
operation is returned to the caller unchanged: `get`, `update`, `reset` and
`exit` forward the error of their single store call, and `get_or_default`
forwards the error of whichever of its two store calls fails. -/
theorem C8_backend_error_propagation (D E σ St : Type) [Inhabited D]
    (dlg : Dialogue D E σ) (s : σ) :
    (∀ e s1, dlg.storage.get_dialogue s dlg.chat_id = (Except.error e, s1) →
        dlg.get s = (Except.error e, s1) ∧
        dlg.get_or_default s = (Except.error e, s1)) ∧
    (∀ (into : St → D) (st : St) e s1,
        dlg.storage.update_dialogue s dlg.chat_id (into st) = (Except.error e, s1) →
        dlg.update into st s = (Except.error e, s1)) ∧
    (∀ e s1, dlg.storage.update_dialogue s dlg.chat_id (default : D) = (Except.error e, s1) →
        dlg.reset s = (Except.error e, s1)) ∧
    (∀ e s1, dlg.storage.remove_dialogue s dlg.chat_id = (Except.error e, s1) →
        dlg.exit s = (Except.error e, s1)) ∧
    (∀ s1 e s2, dlg.get s = (Except.ok none, s1) →
        dlg.storage.update_dialogue s1 dlg.chat_id (default : D) = (Except.error e, s2) →
        dlg.get_or_default s = (Except.error e, s2)) := by
  refine ⟨?_, ?_, ?_, ?_, ?_⟩
  · intro e s1 h
    exact ⟨h, by simp only [Dialogue.get_or_default, Dialogue.get, h]⟩
  · intro into st e s1 h
    simp only [Dialogue.update, h]
  · intro e s1 h
    simp only [Dialogue.reset, Dialogue.update, h]
  · intro e s1 h
    exact h
  · intro s1 e s2 hg hu
    simp only [Dialogue.get_or_default, hg, hu]

/-- Claim C8 witness: on the always-failing backend, `get` surfaces the
backend error. -/
theorem C8_backend_error_propagation_witness :
    (Dialogue.storage ⟨failStorage, 0⟩).get_dialogue () 0 = (Except.error 7, ()) ∧
    Dialogue.get (⟨failStorage, 0⟩ : Dialogue Nat Nat Unit) () = (Except.error 7, ()) :=
  ⟨rfl, ((C8_backend_error_propagation Nat Nat Unit Nat ⟨failStorage, 0⟩ ()).1 7 () rfl).1⟩

/-- Claim C10: when the handle's chat id already has a record (a successful
`get` returns `some d`), `get_or_default` returns that record with no write:
over a lawful store the resulting store state is the input state, so the
contents at every conversation id are unchanged. -/
theorem C10_get_or_default_no_write (D E σ : Type) [Inhabited D]
    (dlg : Dialogue D E σ) (contents : σ → Int → Option D)
    (L : LawfulStorage dlg.storage contents) (s s1 : σ) (d : D)
    (hget : dlg.get s = (Except.ok (some d), s1)) :
    dlg.get_or_default s = (Except.ok d, s1) ∧
    s1 = s ∧ ∀ j, contents s1 j = contents s j := by
  have hs := (L.get_ok s dlg.chat_id (some d) s1 hget).2
  refine ⟨?_, hs, fun j => by rw [hs]⟩
  simp only [Dialogue.get_or_default, hget]

/-- Claim C10 witness: on the in-memory store holding record 5 for chat 42,
`get_or_default` returns 5 and the store state is untouched. -/
theorem C10_get_or_default_no_write_witness :
    Dialogue.get (⟨InMemStorage Nat, 42⟩ : Dialogue Nat Empty (Int → Option Nat)) presentStore =
      (Except.ok (some 5), presentStore) ∧
    Dialogue.get_or_default (⟨InMemStorage Nat, 42⟩ : Dialogue Nat Empty (Int → Option Nat))
      presentStore = (Except.ok 5, presentStore) :=
  ⟨rfl, (C10_get_or_default_no_write Nat Empty (Int → Option Nat) ⟨InMemStorage Nat, 42⟩
      (fun s => s) (InMemStorage_lawful Nat) presentStore presentStore 5 rfl).1⟩

end Teloxide
